import Mathlib

/-!
Verification of the openrelik-worker-chromecreds worker (src/tasks.py).

The worker's core is three pieces:
* `_extract_chrome_creds(filepath)` — opens a Chrome "Login Data" SQLite file
  and builds a dict from origin URL to the list of usernames found, skipping
  rows whose username value is falsy, and absorbing `sqlite3.OperationalError`
  and `sqlite3.DatabaseError` raised while iterating the query cursor;
* the task body `command(...)` — loops over input files, creates one output
  file per input, merges per-file results into `extracted_creds` via
  `dict.update`, records the output file only when the per-file result is
  non-empty, deduplicates each username list at the end, and builds a report;
* `generate_report(creds)` — renders the aggregated mapping into a structured
  report with a title, a summary, a priority and two sections.

Python dicts preserve insertion order, so a dict from site to username list is
embedded as an association list `List (String × List String)` with distinct
keys ordered by first insertion.  SQLite rows are pairs of the origin URL and
an optional username value (`none` models SQL NULL; `some ""` models the empty
string; both are falsy in Python's `if not row[1]`).

The filesystem behaviour of `sqlite3` is modelled by `FileModel`, the
behaviour the file at the given path induces on the extractor:
* `missingPath` — the descriptor had no `path` entry, so `input_file.get("path")`
  is `None` and `sqlite3.connect(None)` raises `TypeError`.  That call sits
  *outside* the `try` block (tasks.py line 115), so the exception propagates.
* `dbFile rows failure` — `sqlite3.connect` succeeds (it is lazy: it also
  succeeds on a nonexistent path) and iterating the cursor yields `rows`
  before either finishing (`failure = none`) or raising the given
  `sqlite3` error (`failure = some e`), which the extractor absorbs.
A nonexistent path yields zero rows and then `sqlite3.OperationalError`
("no such table"); a file that is not a SQLite database yields zero rows and
then `sqlite3.DatabaseError` ("file is not a database").
-/

/-- A per-file or aggregated credential mapping: site → usernames, as an
insertion-ordered association list (a Python dict of lists). -/
abbrev CredMap := List (String × List String)

/-- One row of `SELECT origin_url, username_value FROM logins`: the origin URL
and the username value, `none` for SQL NULL. -/
abbrev LoginRow := String × Option String

/-- Python truthiness of the username value `row[1]`: NULL and the empty
string are falsy, any other string is truthy. -/
def truthy : Option String → Bool
  | none => false
  | some s => !(s == "")

/-- The keys of a credential mapping, in insertion order. -/
def keys (m : CredMap) : List String := m.map Prod.fst

/-- The body of the row loop of `_extract_chrome_creds` (tasks.py lines
118-123): skip the row if the username is falsy, otherwise append the username
to the list keyed by the origin URL, creating the list on first sight. -/
def addRow (ret : CredMap) (row : LoginRow) : CredMap :=
  match row.2 with
  | none => ret
  | some u =>
    if u = "" then ret
    else if (keys ret).contains row.1 then
      ret.map fun p => if p.1 = row.1 then (p.1, p.2 ++ [u]) else p
    else ret ++ [(row.1, [u])]

/-- The mapping `ret` built by the row loop over the rows the cursor yielded
before finishing or failing. -/
def buildRet (rows : List LoginRow) : CredMap := rows.foldl addRow []

/-- The two `sqlite3` error classes the extractor catches (tasks.py lines
124-129): `OperationalError` (e.g. database path not found) and
`DatabaseError` (not a valid SQLite DB). -/
inductive SqliteError
  | operational
  | database
deriving DecidableEq

/-- What the file at the extractor's `filepath` argument makes `sqlite3` do;
see the module docstring. -/
inductive FileModel
  | missingPath
  | dbFile (rows : List LoginRow) (failure : Option SqliteError)
deriving DecidableEq

/-- A nonexistent path: `sqlite3.connect` succeeds lazily and the query then
raises `OperationalError` before yielding any row. -/
def nonexistentPath : FileModel := FileModel.dbFile [] (some SqliteError.operational)

/-- A file that is not a valid SQLite database: `connect` succeeds and the
query raises `DatabaseError` before yielding any row. -/
def notADatabase : FileModel := FileModel.dbFile [] (some SqliteError.database)

/-- `_extract_chrome_creds` (tasks.py lines 104-132).  On a missing path the
`connect` call itself raises outside the `try` block, so the exception
propagates (`Except.error`).  Otherwise the row loop builds `ret` from the
rows the cursor yielded; both the success path and the two caught error
classes return `ret`, so the result does not depend on `failure`. -/
def _extract_chrome_creds : FileModel → Except Unit CredMap
  | FileModel.missingPath => Except.error ()
  | FileModel.dbFile rows _ => Except.ok (buildRet rows)

/-- The priority levels of the external reporting library used by the worker
(`openrelik_worker_common.reporting.Priority`); only LOW and MEDIUM occur. -/
inductive Priority
  | LOW
  | MEDIUM
  | HIGH
deriving DecidableEq

/-- One item of a report section: a bullet with a nesting level
(`add_bullet(text, level)`, level 1 by default) or a paragraph
(`add_paragraph(text)`). -/
inductive SectionItem
  | bullet (text : String) (level : Nat)
  | paragraph (text : String)
deriving DecidableEq

/-- The structured report of the external reporting library as populated by
`generate_report`: a title, a summary string, a priority, and the sections in
creation order, each section being its items in insertion order. -/
structure Report where
  title : String
  summary : String
  priority : Priority
  sections : List (List SectionItem)
deriving DecidableEq

/-- The summary string of tasks.py line 89, for a mapping with `n` site keys. -/
def summaryLine (n : Nat) : String :=
  toString n ++ " saved credentials found in Chrome Login Data"

/-- Python `repr` of one username string for the common case of a string
without quotes or escapes, as rendered inside `f"...{v}"` of a list `v`. -/
def pyStrRepr (s : String) : String := "'" ++ s ++ "'"

/-- Python `str` of a list of strings, e.g. `['exampleuser', 'admin']`, as
produced by interpolating the username list into the detail line. -/
def pyListRepr (xs : List String) : String :=
  "[" ++ String.intercalate ", " (xs.map pyStrRepr) ++ "]"

/-- The per-site detail line of tasks.py line 96. -/
def siteLine (site : String) (users : List String) : String :=
  "Site '" ++ site ++ "' with users '" ++ pyListRepr users ++ "'"

/-- `generate_report` (tasks.py lines 85-102).  The first component is the
report built by the function; the second is the state of the argument mapping
when the call returns, so that absence of mutation is expressible.  The code
creates the summary section then the details section, sets the summary from
`len(creds)`, sets priority LOW and overwrites it with MEDIUM when `creds` is
non-empty, fills the details section (a top-level `Credentials:` bullet plus
one level-2 bullet per site in iteration order when non-empty, a single
`No saved credentials found` bullet otherwise), and finally adds the summary
paragraph to the summary section. -/
def generate_report (creds : CredMap) : Report × CredMap :=
  let summary := summaryLine creds.length
  if creds.isEmpty then
    (⟨"Chrome Config Analyzer", summary, Priority.LOW,
      [[SectionItem.paragraph summary],
       [SectionItem.bullet "No saved credentials found" 1]]⟩, creds)
  else
    (⟨"Chrome Config Analyzer", summary, Priority.MEDIUM,
      [[SectionItem.paragraph summary],
       SectionItem.bullet "Credentials:" 1 ::
         creds.map fun p => SectionItem.bullet (siteLine p.1 p.2) 2]⟩, creds)

/-- One input-file descriptor as the task body uses it: its display name and
the behaviour of the file at its path (see `FileModel`). -/
structure InputFile where
  display_name : String
  file : FileModel
deriving DecidableEq

/-- The name given to the output file created for an input file
(tasks.py line 62). -/
def dictName (f : InputFile) : String := f.display_name ++ "-chromecreds.dict"

/-- Python `dict.update` on dicts of lists (tasks.py line 66): every key of
`src` has its value *replaced* in `dest` (keeping the key's position), keys
new to `dest` are appended in `src` order. -/
def dictUpdate (dest src : CredMap) : CredMap :=
  src.foldl
    (fun d p =>
      if (keys d).contains p.1 then
        d.map fun q => if q.1 = p.1 then (q.1, p.2) else q
      else d ++ [p])
    dest

/-- The final deduplication pass (tasks.py lines 74-75): every key's list is
replaced by `list(set(...))` of it, modelled as `List.dedup` (the set's
iteration order is unspecified in Python; only distinctness and membership
are relied upon downstream). -/
def dedupPass (m : CredMap) : CredMap := m.map fun p => (p.1, p.2.dedup)

/-- The successful outcome of the task body: the recorded output-file names,
the final aggregated mapping, and the one-element task report list. -/
structure JobSuccess where
  output_files : List String
  extracted_creds : CredMap
  task_report : List Report
deriving DecidableEq

/-- The per-input-file loop of `command` (tasks.py lines 59-72), threading
`extracted_creds`, the recorded `output_files`, and the trace of output files
created by `create_output_file`.  Each iteration first creates the output
file (unconditionally, before extraction), then extracts; an uncaught
exception from extraction propagates, aborting the loop but leaving the
created file behind.  On success the per-file result is merged with
`dict.update` and the created file is recorded only when the per-file result
is non-empty. -/
def commandLoop :
    List InputFile → CredMap → List String → List String →
      List String × Except Unit (CredMap × List String)
  | [], _ec, outs, created => (created, Except.ok (_ec, outs))
  | f :: rest, ec, outs, created =>
    let created2 := created ++ [dictName f]
    match _extract_chrome_creds f.file with
    | Except.error e => (created2, Except.error e)
    | Except.ok creds =>
      let ec2 := dictUpdate ec creds
      let outs2 := if creds.isEmpty then outs else outs ++ [dictName f]
      commandLoop rest ec2 outs2 created2

/-- The task body `command` (tasks.py lines 33-83): run the loop from an empty
aggregate, then deduplicate every key's list, then build the task report.
The first component is the trace of created output files; the second is the
job outcome (an uncaught exception, or the recorded output files, final
mapping and report). -/
def command (files : List InputFile) : List String × Except Unit JobSuccess :=
  match commandLoop files [] [] [] with
  | (created, Except.error e) => (created, Except.error e)
  | (created, Except.ok (ec, outs)) =>
    let final := dedupPass ec
    (created, Except.ok ⟨outs, final, [(generate_report final).1]⟩)

/-- Whether extraction on an input file succeeds with a non-empty mapping:
the condition under which the loop records the file's artifact. -/
def extractNonempty (f : InputFile) : Bool :=
  match _extract_chrome_creds f.file with
  | Except.ok creds => !creds.isEmpty
  | Except.error _ => false

/-- The input files the loop reaches: all of them when every extraction
succeeds, otherwise those up to and including the first file whose extraction
raises. -/
def filesUntilError : List InputFile → List InputFile
  | [] => []
  | f :: rest =>
    match _extract_chrome_creds f.file with
    | Except.error _ => [f]
    | Except.ok _ => f :: filesUntilError rest

/-- C1: the claim says merging a per-file map into the aggregate extends each
existing key's list with the new list.  The code merges with `dict.update`
(tasks.py line 66), which replaces the list: starting from an aggregate
mapping the site to `["a"]` and merging a per-file map with `["b"]`, the
aggregate holds `["b"]` — not the claimed `["a", "b"]` — so the username
`"a"` seen in an earlier file has been discarded. -/
theorem c1_update_replaces :
    dictUpdate [("http://x.com", ["a"])] [("http://x.com", ["b"])]
        = [("http://x.com", ["b"])] ∧
      dictUpdate [("http://x.com", ["a"])] [("http://x.com", ["b"])]
        ≠ [("http://x.com", ["a", "b"])] := by
  exact ⟨rfl, by decide⟩

/-- C2: both caught failure classes are absorbed: whenever the cursor raises
`OperationalError` or `DatabaseError` after yielding some prefix of rows, the
extractor returns (does not raise) exactly the partial mapping built from
that prefix; in particular on a nonexistent path and on a file that is not a
database — where the failure precedes the first row — it returns the empty
mapping. -/
theorem c2_failures_tolerated (rows : List LoginRow) (e : SqliteError) :
    _extract_chrome_creds (FileModel.dbFile rows (some e))
        = Except.ok (buildRet rows) ∧
      _extract_chrome_creds nonexistentPath = Except.ok [] ∧
      _extract_chrome_creds notADatabase = Except.ok [] :=
  ⟨rfl, rfl, rfl⟩

/-- C3 counterexample: the claim says an input descriptor with a missing path
is tolerated and yields an empty result; but `sqlite3.connect(None)` raises
outside the `try` block, so the extractor raises rather than returning the
empty mapping. -/
theorem c3_missing_path_not_empty :
    _extract_chrome_creds FileModel.missingPath ≠ Except.ok ([] : CredMap) := by
  simp [_extract_chrome_creds]

/-- C3 amended: an input descriptor with a missing path is *not* tolerated:
the connect call receives the absent path before the `try` block is entered,
so its failure propagates out of `_extract_chrome_creds` (and aborts the
task) instead of being absorbed into an empty result. -/
theorem c3_missing_path_raises :
    _extract_chrome_creds FileModel.missingPath = Except.error () := rfl

/-- C6: on the empty mapping, `generate_report` yields priority LOW, the
summary `0 saved credentials found in Chrome Login Data`, and a details
section holding exactly the one bullet `No saved credentials found`. -/
theorem c6_report_empty :
    (generate_report []).1 =
      ⟨"Chrome Config Analyzer",
       "0 saved credentials found in Chrome Login Data",
       Priority.LOW,
       [[SectionItem.paragraph "0 saved credentials found in Chrome Login Data"],
        [SectionItem.bullet "No saved credentials found" 1]]⟩ := by
  decide

/-- C7: on every non-empty mapping, `generate_report` yields priority MEDIUM,
a summary counting the site keys (not the usernames), and a details section
made of the top-level `Credentials:` bullet followed by one level-2 bullet
per site, rendered `Site '<site>' with users '<username-list-repr>'`, in the
mapping's iteration order. -/
theorem c7_report_nonempty (m : CredMap) (h : m ≠ []) :
    (generate_report m).1 =
      ⟨"Chrome Config Analyzer", summaryLine m.length, Priority.MEDIUM,
       [[SectionItem.paragraph (summaryLine m.length)],
        SectionItem.bullet "Credentials:" 1 ::
          m.map fun p => SectionItem.bullet (siteLine p.1 p.2) 2]⟩ := by
  cases m with
  | nil => exact absurd rfl h
  | cons a t => rfl

/-- C7 witness: the populated-report theorem at the one-site mapping of the
repository's test data. -/
theorem c7_witness :
    (generate_report [("http://test.com", ["testuser"])]).1 =
      ⟨"Chrome Config Analyzer", summaryLine 1, Priority.MEDIUM,
       [[SectionItem.paragraph (summaryLine 1)],
        [SectionItem.bullet "Credentials:" 1,
         SectionItem.bullet (siteLine "http://test.com" ["testuser"]) 2]]⟩ :=
  c7_report_nonempty [("http://test.com", ["testuser"])] (by decide)

/-- C9: `generate_report` does not mutate its argument — the mapping after
the call is the mapping passed in — and it is deterministic: two calls on
equal mappings return equal results. -/
theorem c9_pure (m m' : CredMap) (h : m' = m) :
    (generate_report m).2 = m ∧ generate_report m' = generate_report m := by
  refine ⟨?_, by rw [h]⟩
  cases m with
  | nil => rfl
  | cons a t => rfl

/-- C9 witness: purity and determinism at a concrete two-site mapping. -/
theorem c9_witness :
    (generate_report
          [("http://test.com", ["testuser"]),
           ("http://example.com", ["exampleuser", "admin"])]).2 =
        [("http://test.com", ["testuser"]),
         ("http://example.com", ["exampleuser", "admin"])] ∧
      generate_report
          [("http://test.com", ["testuser"]),
           ("http://example.com", ["exampleuser", "admin"])] =
        generate_report
          [("http://test.com", ["testuser"]),
           ("http://example.com", ["exampleuser", "admin"])] :=
  c9_pure
    [("http://test.com", ["testuser"]), ("http://example.com", ["exampleuser", "admin"])]
    [("http://test.com", ["testuser"]), ("http://example.com", ["exampleuser", "admin"])]
    rfl

lemma addRow_skip (ret : CredMap) (row : LoginRow) (h : truthy row.2 = false) :
    addRow ret row = ret := by
  obtain ⟨url, u⟩ := row
  cases u with
  | none => rfl
  | some s =>
    simp only [truthy, Bool.not_eq_false', beq_iff_eq] at h
    simp [addRow, h]

lemma keys_map_if (m : CredMap) (k : String) (v : List String → List String) :
    keys (m.map fun p => if p.1 = k then (p.1, v p.2) else p) = keys m := by
  unfold keys
  rw [List.map_map]
  refine List.map_congr_left ?_
  intro p _
  by_cases h : p.1 = k <;> simp [h]

lemma keys_addRow (ret : CredMap) (row : LoginRow) :
    keys (addRow ret row) = keys ret ∨
      keys (addRow ret row) = keys ret ++ [row.1] := by
  obtain ⟨url, u⟩ := row
  cases u with
  | none => exact Or.inl rfl
  | some s =>
    by_cases hs : s = ""
    · exact Or.inl (by simp [addRow, hs])
    · by_cases hc : (keys ret).contains url
      · refine Or.inl ?_
        simp only [addRow, hs, if_false, hc, if_true]
        exact keys_map_if ret url fun x => x ++ [s]
      · refine Or.inr ?_
        rw [Bool.not_eq_true] at hc
        simp only [keys] at hc
        simp [addRow, hs, keys]
        rw [if_neg (by rw [hc]; exact Bool.false_ne_true)]
        simp

lemma site_not_in_foldl (rows : List LoginRow) (site : String)
    (hrows : ∀ r ∈ rows, r.1 = site → truthy r.2 = false) :
    ∀ acc : CredMap, site ∉ keys acc → site ∉ keys (rows.foldl addRow acc) := by
  induction rows with
  | nil => exact fun acc h => h
  | cons r rest ih =>
    intro acc hacc
    rw [List.foldl_cons]
    apply ih fun x hx => hrows x (List.mem_cons_of_mem r hx)
    by_cases hr : r.1 = site
    · rw [addRow_skip acc r (hrows r (List.mem_cons_self r rest) hr)]
      exact hacc
    · rcases keys_addRow acc r with h | h
      · rw [h]; exact hacc
      · rw [h]
        intro hmem
        rcases List.mem_append.mp hmem with h1 | h1
        · exact hacc h1
        · exact hr (List.mem_singleton.mp h1).symm

/-- C4: a row whose username value is falsy (NULL or empty) contributes
nothing — deleting it from the row stream leaves the extractor's result
unchanged — and a site all of whose rows have falsy usernames does not occur
as a key of the result at all. -/
theorem c4_empty_username_skipped (rs1 rs2 : List LoginRow) (row : LoginRow)
    (h : truthy row.2 = false) :
    buildRet (rs1 ++ row :: rs2) = buildRet (rs1 ++ rs2) ∧
      ∀ rows : List LoginRow, ∀ site : String,
        (∀ r ∈ rows, r.1 = site → truthy r.2 = false) →
        site ∉ keys (buildRet rows) := by
  constructor
  · unfold buildRet
    rw [List.foldl_append, List.foldl_append, List.foldl_cons, addRow_skip _ row h]
  · intro rows site hrows
    exact site_not_in_foldl rows site hrows [] (by simp [keys])

/-- C4 witness: a store whose only row has an empty username yields the same
(empty) result as a store with no rows, and its site is not a key. -/
theorem c4_witness :
    buildRet [("http://a.com", some "")] = buildRet [] ∧
      "http://a.com" ∉ keys (buildRet [("http://a.com", some "")]) :=
  ⟨(c4_empty_username_skipped [] [] ("http://a.com", some "") (by decide)).1,
   (c4_empty_username_skipped [] [] ("http://a.com", some "") (by decide)).2
     [("http://a.com", some "")] "http://a.com" (by decide)⟩

/-- C5: the final pass keeps every site key and replaces its list by its
deduplication: every list in the result is duplicate-free, membership is
preserved, and every username of a site occurs exactly once in that site's
final list. -/
theorem c5_dedup_pass (m : CredMap) :
    keys (dedupPass m) = keys m ∧
      (∀ p ∈ dedupPass m, p.2.Nodup) ∧
      ∀ kv ∈ m, (kv.1, kv.2.dedup) ∈ dedupPass m ∧
        (∀ u, u ∈ kv.2.dedup ↔ u ∈ kv.2) ∧
        ∀ u ∈ kv.2, kv.2.dedup.count u = 1 := by
  refine ⟨?_, ?_, ?_⟩
  · unfold keys dedupPass
    rw [List.map_map]
    rfl
  · intro p hp
    simp only [dedupPass, List.mem_map] at hp
    obtain ⟨kv, _, rfl⟩ := hp
    exact List.nodup_dedup kv.2
  · intro kv hkv
    refine ⟨List.mem_map.mpr ⟨kv, hkv, rfl⟩, fun u => List.mem_dedup, ?_⟩
    intro u hu
    exact List.count_eq_one_of_mem (List.nodup_dedup kv.2) (List.mem_dedup.mpr hu)

/-- C5 witness: deduplication at a site whose aggregated list holds a
duplicate username. -/
theorem c5_witness :
    ("http://x.com", ["a", "b", "a"].dedup)
        ∈ dedupPass [("http://x.com", ["a", "b", "a"])] ∧
      ["a", "b", "a"].dedup.count "a" = 1 :=
  ⟨((c5_dedup_pass [("http://x.com", ["a", "b", "a"])]).2.2
      ("http://x.com", ["a", "b", "a"]) (by decide)).1,
   ((c5_dedup_pass [("http://x.com", ["a", "b", "a"])]).2.2
      ("http://x.com", ["a", "b", "a"]) (by decide)).2.2 "a" (by decide)⟩

lemma commandLoop_created :
    ∀ (files : List InputFile) (ec : CredMap) (outs created : List String),
      (commandLoop files ec outs created).1
        = created ++ (filesUntilError files).map dictName := by
  intro files
  induction files with
  | nil => intro ec outs created; simp [commandLoop, filesUntilError]
  | cons f rest ih =>
    intro ec outs created
    cases hx : _extract_chrome_creds f.file with
    | error e => simp [commandLoop, filesUntilError, hx]
    | ok creds => simp [commandLoop, filesUntilError, hx, ih]

lemma commandLoop_ok :
    ∀ (files : List InputFile) (ec : CredMap) (outs created created' : List String)
      (ec' : CredMap) (outs' : List String),
      commandLoop files ec outs created = (created', Except.ok (ec', outs')) →
      outs' = outs ++ (files.filter extractNonempty).map dictName ∧
        created' = created ++ files.map dictName := by
  intro files
  induction files with
  | nil =>
    intro ec outs created created' ec' outs' h
    simp [commandLoop] at h
    obtain ⟨rfl, rfl, rfl⟩ := h
    simp
  | cons f rest ih =>
    intro ec outs created created' ec' outs' h
    cases hx : _extract_chrome_creds f.file with
    | error e =>
      rw [commandLoop] at h
      simp [hx] at h
    | ok creds =>
      rw [commandLoop] at h
      simp only [hx] at h
      obtain ⟨h1, h2⟩ := ih _ _ _ _ _ _ h
      constructor
      · rw [h1]
        by_cases hne : creds.isEmpty
        · simp [List.filter_cons, extractNonempty, hx, hne]
        · simp [List.filter_cons, extractNonempty, hx, hne]
      · rw [h2]; simp

lemma command_created (files : List InputFile) :
    (command files).1 = (commandLoop files [] [] []).1 := by
  unfold command
  cases hcl : commandLoop files [] [] [] with
  | mk created res =>
    cases res with
    | error e => rfl
    | ok p => obtain ⟨ec, outs⟩ := p; rfl

lemma command_ok_loop (files : List InputFile) (r : JobSuccess)
    (h : (command files).2 = Except.ok r) :
    ∃ created ec,
      commandLoop files [] [] [] = (created, Except.ok (ec, r.output_files)) := by
  unfold command at h
  cases hcl : commandLoop files [] [] [] with
  | mk created res =>
    rw [hcl] at h
    cases res with
    | error e => exact absurd h (by simp)
    | ok p =>
      obtain ⟨ec, outs⟩ := p
      simp only [Except.ok.injEq] at h
      subst h
      exact ⟨created, ec, rfl⟩

/-- C8: on a job where no extraction raises, the recorded output-file list is
exactly one entry per input file whose extraction yielded a non-empty
mapping, in input order, each named with the file's display name plus the
`-chromecreds.dict` suffix; files yielding no credentials contribute no
entry. -/
theorem c8_artifacts (files : List InputFile) (r : JobSuccess)
    (h : (command files).2 = Except.ok r) :
    r.output_files = (files.filter extractNonempty).map dictName := by
  obtain ⟨created, ec, hcl⟩ := command_ok_loop files r h
  obtain ⟨h1, _⟩ := commandLoop_ok files [] [] [] created ec r.output_files hcl
  simpa using h1

lemma filesUntilError_all_ok :
    ∀ files : List InputFile,
      (∀ f ∈ files, (_extract_chrome_creds f.file).isOk = true) →
      filesUntilError files = files := by
  intro files
  induction files with
  | nil => intro _; rfl
  | cons f rest ih =>
    intro h
    cases hx : _extract_chrome_creds f.file with
    | error e =>
      have hf := h f (List.mem_cons_self f rest)
      rw [hx] at hf
      simp [Except.isOk, Except.toBool] at hf
    | ok creds =>
      simp [filesUntilError, hx, ih fun x hx2 => h x (List.mem_cons_of_mem f hx2)]

/-- C10: the output-file factory is invoked once per processed input file,
unconditionally and before extraction: the trace of created output files is
one `<display_name>-chromecreds.dict` entry per input file up to and
including the first file whose extraction raises — so a file whose extraction
raises, or yields no credentials, still gets its output file created — and
when every extraction succeeds the trace covers every input file, even those
recorded nowhere in the output-file list. -/
theorem c10_unconditional_creation (files : List InputFile) :
    (command files).1 = (filesUntilError files).map dictName ∧
      ((∀ f ∈ files, (_extract_chrome_creds f.file).isOk = true) →
        (command files).1 = files.map dictName) := by
  have h1 : (command files).1 = (filesUntilError files).map dictName := by
    rw [command_created, commandLoop_created]
    simp
  exact ⟨h1, fun hok => by rw [h1, filesUntilError_all_ok files hok]⟩

/-- Witness input file A: a well-formed store yielding one site. -/
def fileA : InputFile :=
  ⟨"LoginData1", FileModel.dbFile [("http://test.com", some "testuser")] none⟩

/-- Witness input file B: a well-formed store yielding no credentials. -/
def fileB : InputFile := ⟨"LoginData2", FileModel.dbFile [] none⟩

/-- C8 witness: of two input files where only the first yields credentials,
exactly the first's artifact is recorded, under its display name plus
suffix. -/
theorem c8_witness :
    (JobSuccess.mk ["LoginData1-chromecreds.dict"]
          [("http://test.com", ["testuser"])]
          [(generate_report [("http://test.com", ["testuser"])]).1]).output_files
      = ([fileA, fileB].filter extractNonempty).map dictName :=
  c8_artifacts [fileA, fileB]
    (JobSuccess.mk ["LoginData1-chromecreds.dict"]
      [("http://test.com", ["testuser"])]
      [(generate_report [("http://test.com", ["testuser"])]).1])
    rfl

/-- C10 witness: with the same two files, the creation trace holds one
output-file name per input file — including the credential-less second file,
whose name the recorded output-file list of the C8 witness omits. -/
theorem c10_witness :
    (command [fileA, fileB]).1 = (filesUntilError [fileA, fileB]).map dictName ∧
      (command [fileA, fileB]).1 = [fileA, fileB].map dictName :=
  ⟨(c10_unconditional_creation [fileA, fileB]).1,
   (c10_unconditional_creation [fileA, fileB]).2 (by decide)⟩
